import Mathlib

/-!
Verification of the wardrobe multi-opening calculator (`src/app.py`).

The dimensioning engine (`calculate_for_row`, app.py lines 367-553) and the
diagram layout computation (`draw_wardrobe_diagram`, app.py lines 65-183) are
shallowly embedded below.  Python floats are modelled as exact rationals `ℚ`,
Python ints as `ℤ`, Python strings as Lean `String`.  Python's `round`
(banker's rounding) is modelled by `pyRound` / `pyRound1`, `int()` truncation
by `pyInt`, and `str.startswith` by `pyStartswith` (a character-prefix test,
which is exactly Python's semantics).
-/

/-- Python `round(q)`: nearest integer, ties to even (app.py uses
`int(round(x))` on the reported fields). -/
def pyRound (q : ℚ) : ℤ :=
  if q - ⌊q⌋ < 1/2 then ⌊q⌋
  else if 1/2 < q - ⌊q⌋ then ⌊q⌋ + 1
  else if ⌊q⌋ % 2 = 0 then ⌊q⌋ else ⌊q⌋ + 1

/-- Python `round(q, 1)`: round to one decimal place, ties to even. -/
def pyRound1 (q : ℚ) : ℚ := (pyRound (10 * q) : ℚ) / 10

/-- Python `int(q)`: truncation toward zero. -/
def pyInt (q : ℚ) : ℤ := if q < 0 then ⌈q⌉ else ⌊q⌋

/-- Python `s.startswith(p)`: `p`'s characters are a prefix of `s`'s. -/
def pyStartswith (s p : String) : Bool := p.data.isPrefixOf s.data

/-! ## System constants (app.py lines 23-59) -/

def BOTTOM_LINER_THICKNESS : ℚ := 36
def SIDE_LINER_THICKNESS : ℚ := 18
def TRACKSET_TOLERANCE : ℚ := 54
def MAX_DOOR_HEIGHT : ℚ := 2431
def MAX_DROPDOWN_LIMIT : ℚ := 400
def FIXED_DOOR_HEIGHT : ℚ := 2223
def DEFAULT_FIXED_OVERLAP_TOLERANCE : ℚ := 150
def CUSTOM_DOOR_OVERLAP_MM : ℚ := 25
def BESPOKE_DROPDOWN_LABEL : String := "Bespoke dropdown (auto)"

/-- `OVERLAP_TOLERANCES.get(doors, DEFAULT_FIXED_OVERLAP_TOLERANCE)`
(app.py lines 34-39, 408): the dict maps 2↦75, 3↦150, 4↦150; every other
door count falls back to the 150 default. -/
def OVERLAP_TOLERANCES (doors : ℤ) : ℚ :=
  if doors = 2 then 75
  else if doors = 3 then 150
  else if doors = 4 then 150
  else DEFAULT_FIXED_OVERLAP_TOLERANCE

/-- `TOP_LINER_OPTIONS.get(option, 108)` (app.py lines 42-47, 491). -/
def TOP_LINER_OPTIONS (option : String) : ℚ :=
  if option = "108mm Dropdown" then 108
  else if option = "90mm Dropdown" then 90
  else if option = "50mm Dropdown" then 50
  else if option = "No dropdown (0mm)" then 0
  else 108

/-! ## Data model -/

/-- One row of the openings table (the per-opening request record). -/
structure Row where
  Width_mm : ℚ
  Height_mm : ℚ
  Doors : ℤ
  Door_System : String
  Top_Liner_Option : String
  Fixed_Door_Width_mm : ℚ
deriving DecidableEq, Repr

/-- The result record produced by `calculate_for_row` (the pd.Series of
app.py lines 429-447 / 534-553). -/
structure DimensionResult where
  Door_Height_mm : ℤ
  Door_Width_mm : ℤ
  Doors_Used : ℤ
  Dropdown_Height_mm : ℤ
  Recommended_Dropdown_Height_mm : Option ℤ
  Side_Liner_Thickness_mm : ℚ
  Required_Buildout_Per_Side_mm : ℚ
  Net_Width_mm : ℤ
  Door_Span_mm : ℤ
  Overlap_Tolerance_mm : ℤ
  Span_Diff_mm : ℚ
  Bottom_Liner_Length_mm : ℤ
  Side_Liner_Length_mm : ℤ
  Dropdown_Length_mm : ℤ
  Trackset_Tolerance_mm : ℤ
  Height_Status : String
  Issue : String
deriving DecidableEq, Repr

/-! ## Fixed 2223mm door mode (app.py lines 375-447) -/

/-- Fall back to 762 when the selected width is not one of 610/762/914
(app.py lines 382-384). -/
def fixedDoorWidth (w : ℚ) : ℚ :=
  if w = 610 ∨ w = 762 ∨ w = 914 then w else 762

/-- `dropdown_h_raw = height - 36 - 54 - 2223` (app.py line 388). -/
def fixedDropdownRaw (height : ℚ) : ℚ :=
  height - BOTTOM_LINER_THICKNESS - TRACKSET_TOLERANCE - FIXED_DOOR_HEIGHT

/-- Dropdown used in fixed mode: clamp negative to 0, cap at 400
(app.py lines 390-405). -/
def fixedModeDropdown (height : ℚ) : ℚ :=
  if fixedDropdownRaw height < 0 then 0
  else if MAX_DROPDOWN_LIMIT < fixedDropdownRaw height then MAX_DROPDOWN_LIMIT
  else fixedDropdownRaw height

/-- Height status in fixed mode (app.py lines 390-405). -/
def fixedModeStatus (height : ℚ) : String :=
  if fixedDropdownRaw height < 0 then
    "Opening too small for 2223mm door plus 36mm bottom liner and 54mm trackset tolerance."
  else if MAX_DROPDOWN_LIMIT < fixedDropdownRaw height then
    "Dropdown needed is " ++ toString (pyInt (fixedDropdownRaw height)) ++
      "mm – exceeds max allowed 400mm (including 54mm trackset tolerance)."
  else "OK"

/-- `door_span = doors * door_width` (app.py line 413). -/
def fixedDoorSpan (doors : ℤ) (fw : ℚ) : ℚ := doors * fixedDoorWidth fw

/-- `side_thk_raw = (width - door_span + tol) / 2` (app.py line 414). -/
def fixedSideThkRaw (width : ℚ) (doors : ℤ) (fw : ℚ) : ℚ :=
  (width - fixedDoorSpan doors fw + OVERLAP_TOLERANCES doors) / 2

/-- Side thickness can't be negative (app.py lines 417-420). -/
def fixedSideThk (width : ℚ) (doors : ℤ) (fw : ℚ) : ℚ :=
  if fixedSideThkRaw width doors fw < 0 then 0 else fixedSideThkRaw width doors fw

/-- `net_width = width - 2 * side_thk` (app.py line 422). -/
def fixedNetWidth (width : ℚ) (doors : ℤ) (fw : ℚ) : ℚ :=
  width - 2 * fixedSideThk width doors fw

/-- `span_diff = door_span - (net_width + tol)` (app.py line 423). -/
def fixedSpanDiff (width : ℚ) (doors : ℤ) (fw : ℚ) : ℚ :=
  fixedDoorSpan doors fw - (fixedNetWidth width doors fw + OVERLAP_TOLERANCES doors)

/-- The fixed-door-system branch of `calculate_for_row` (app.py
lines 375-447), applied after the width/height/doors clamping. -/
def calcFixedMode (width height : ℚ) (doors : ℤ) (fw : ℚ) : DimensionResult :=
  { Door_Height_mm := pyRound FIXED_DOOR_HEIGHT
    Door_Width_mm := pyRound (fixedDoorWidth fw)
    Doors_Used := doors
    Dropdown_Height_mm := pyRound (fixedModeDropdown height)
    Recommended_Dropdown_Height_mm := none
    Side_Liner_Thickness_mm := pyRound1 (fixedSideThk width doors fw)
    Required_Buildout_Per_Side_mm :=
      pyRound1 (max (fixedSideThk width doors fw - SIDE_LINER_THICKNESS) 0)
    Net_Width_mm := pyRound (fixedNetWidth width doors fw)
    Door_Span_mm := pyRound (fixedDoorSpan doors fw)
    Overlap_Tolerance_mm := pyRound (OVERLAP_TOLERANCES doors)
    Span_Diff_mm := pyRound1 (fixedSpanDiff width doors fw)
    Bottom_Liner_Length_mm := pyRound (fixedNetWidth width doors fw)
    Side_Liner_Length_mm := pyRound height
    Dropdown_Length_mm := pyRound (fixedNetWidth width doors fw)
    Trackset_Tolerance_mm := 54
    Height_Status := fixedModeStatus height
    Issue := if fixedModeStatus height = "OK" then "✅ OK" else "🔴 Check height" }

/-! ## Made-to-measure mode (app.py lines 449-553) -/

/-- `net_width = width - 2 * 18` (app.py lines 453-454). -/
def mtmNetWidth (width : ℚ) : ℚ := width - 2 * SIDE_LINER_THICKNESS

/-- `base_usable_height = height - 36 - 54` (app.py line 459). -/
def baseUsableHeight (height : ℚ) : ℚ :=
  height - BOTTOM_LINER_THICKNESS - TRACKSET_TOLERANCE

/-- `ideal_door_height = min(2431, base_usable_height)` (app.py line 466). -/
def bespokeIdealDoorHeight (b : ℚ) : ℚ := min MAX_DOOR_HEIGHT b

/-- `ideal_dropdown = max(base - ideal_door_height, 0)` (app.py line 467). -/
def bespokeIdealDropdown (b : ℚ) : ℚ := max (b - bespokeIdealDoorHeight b) 0

/-- `dropdown_h = min(ideal_dropdown, 400)` (app.py line 470). -/
def bespokeDropdown (b : ℚ) : ℚ := min (bespokeIdealDropdown b) MAX_DROPDOWN_LIMIT

/-- `raw_door_height = max(base - dropdown_h, 0)` (app.py lines 472-473). -/
def bespokeRawDoorHeight (b : ℚ) : ℚ := max (b - bespokeDropdown b) 0

/-- `final_door_h = min(raw_door_height, 2431)` (app.py line 474). -/
def bespokeFinalDoorHeight (b : ℚ) : ℚ := min (bespokeRawDoorHeight b) MAX_DOOR_HEIGHT

/-- Bespoke-mode status (app.py lines 476-485). -/
def bespokeStatus (b : ℚ) : String :=
  if bespokeIdealDropdown b ≤ MAX_DROPDOWN_LIMIT ∧
      bespokeFinalDoorHeight b ≤ MAX_DOOR_HEIGHT then
    "OK (bespoke dropdown auto-calculated for fit)"
  else if MAX_DROPDOWN_LIMIT < bespokeIdealDropdown b then
    "Too tall for perfect fit with max 400mm bespoke dropdown (ideal dropdown would be about " ++
      toString (pyRound (bespokeIdealDropdown b)) ++
      "mm). Door height capped at 2431mm."
  else "Check height / dropdown settings."

/-- `dropdown_h = min(selected_dropdown, 400)` (app.py lines 491-492). -/
def fixedOptDropdown (option : String) : ℚ :=
  min (TOP_LINER_OPTIONS option) MAX_DROPDOWN_LIMIT

/-- `raw_door_height = max(base - dropdown_h, 0)` (app.py lines 494-495). -/
def fixedOptRawDoorHeight (b : ℚ) (option : String) : ℚ :=
  max (b - fixedOptDropdown option) 0

/-- `dropdown_needed_for_max = base - 2431` (app.py line 498). -/
def dropdownNeededForMax (b : ℚ) : ℚ := b - MAX_DOOR_HEIGHT

/-- Final door height for the fixed-dropdown sub-mode (app.py
lines 500-505). -/
def fixedOptFinalDoorHeight (b : ℚ) (option : String) : ℚ :=
  if fixedOptRawDoorHeight b option ≤ MAX_DOOR_HEIGHT then
    fixedOptRawDoorHeight b option
  else MAX_DOOR_HEIGHT

/-- Fixed-dropdown sub-mode status (app.py lines 500-517). -/
def fixedOptStatus (b : ℚ) (option : String) : String :=
  if fixedOptRawDoorHeight b option ≤ MAX_DOOR_HEIGHT then "OK"
  else if dropdownNeededForMax b ≤ MAX_DROPDOWN_LIMIT then
    "Too tall for selected dropdown – need about " ++
      toString (pyRound (dropdownNeededForMax b)) ++
      "mm dropdown (includes 54mm trackset tolerance)."
  else "Too tall even at max 400mm dropdown (includes 54mm trackset tolerance)."

/-- The quantities produced by the bespoke/fixed-dropdown dispatch of the
made-to-measure branch (app.py lines 461-519). -/
structure MtmHeightCalc where
  dropdown_h : ℚ
  final_door_h : ℚ
  height_status : String
  recommended : Option ℤ
deriving DecidableEq, Repr

/-- Dispatch on the top-liner option (app.py lines 461-519);
`recommended = int(round(dropdown_h))` in bespoke mode, None otherwise. -/
def mtmHeightCalc (b : ℚ) (option : String) : MtmHeightCalc :=
  if option = BESPOKE_DROPDOWN_LABEL then
    { dropdown_h := bespokeDropdown b
      final_door_h := bespokeFinalDoorHeight b
      height_status := bespokeStatus b
      recommended := some (pyRound (bespokeDropdown b)) }
  else
    { dropdown_h := fixedOptDropdown option
      final_door_h := fixedOptFinalDoorHeight b option
      height_status := fixedOptStatus b option
      recommended := none }

/-- `door_width = (net_width + (doors-1)*25) / doors if doors > 0 else 0`
(app.py lines 523-527). -/
def mtmDoorWidth (width : ℚ) (doors : ℤ) : ℚ :=
  if 0 < doors then (mtmNetWidth width + (doors - 1) * CUSTOM_DOOR_OVERLAP_MM) / doors
  else 0

/-- `door_span = doors * door_width` (app.py line 529). -/
def mtmDoorSpan (width : ℚ) (doors : ℤ) : ℚ := doors * mtmDoorWidth width doors

/-- `total_overlap = (doors - 1) * 25` (app.py line 530). -/
def mtmTotalOverlap (doors : ℤ) : ℚ := (doors - 1) * CUSTOM_DOOR_OVERLAP_MM

/-- The made-to-measure branch of `calculate_for_row` (app.py
lines 449-553), applied after the width/height/doors clamping. -/
def calcMadeToMeasure (width height : ℚ) (doors : ℤ) (option : String) : DimensionResult :=
  { Door_Height_mm := pyRound (mtmHeightCalc (baseUsableHeight height) option).final_door_h
    Door_Width_mm := pyRound (mtmDoorWidth width doors)
    Doors_Used := doors
    Dropdown_Height_mm := pyRound (mtmHeightCalc (baseUsableHeight height) option).dropdown_h
    Recommended_Dropdown_Height_mm := (mtmHeightCalc (baseUsableHeight height) option).recommended
    Side_Liner_Thickness_mm := pyRound1 SIDE_LINER_THICKNESS
    Required_Buildout_Per_Side_mm := 0
    Net_Width_mm := pyRound (mtmNetWidth width)
    Door_Span_mm := pyRound (mtmDoorSpan width doors)
    Overlap_Tolerance_mm := pyRound (mtmTotalOverlap doors)
    Span_Diff_mm := 0
    Bottom_Liner_Length_mm := pyRound (mtmNetWidth width)
    Side_Liner_Length_mm := pyRound height
    Dropdown_Length_mm := pyRound (mtmNetWidth width)
    Trackset_Tolerance_mm := 54
    Height_Status := (mtmHeightCalc (baseUsableHeight height) option).height_status
    Issue :=
      if pyStartswith (mtmHeightCalc (baseUsableHeight height) option).height_status "OK" then
        "✅ OK"
      else "🔴 Check height" }

/-- The dimensioning engine `calculate_for_row` (app.py lines 367-553):
clamp width/height to at least 1 and doors to at least 1 (lines 369-371),
then dispatch on the door system string (line 375). -/
def calculate_for_row (row : Row) : DimensionResult :=
  if row.Door_System = "Fixed 2223mm doors" then
    calcFixedMode (max row.Width_mm 1) (max row.Height_mm 1) (max row.Doors 1)
      row.Fixed_Door_Width_mm
  else
    calcMadeToMeasure (max row.Width_mm 1) (max row.Height_mm 1) (max row.Doors 1)
      row.Top_Liner_Option

/-! ## Diagram layout (app.py lines 65-183)

`draw_wardrobe_diagram` normalises the geometry into the unit square and
returns matplotlib patches; only the computed geometry is modelled (the
annotation text boxes sit at fixed positions and carry fixed text). -/

/-- `side_rel = max(side_thk, 0) / max(width, 1)` (app.py lines 77-83). -/
def diagramSideRel (width side_thk : ℚ) : ℚ := max side_thk 0 / max width 1

/-- `door_width_rel = max(door_width, 0) / width if width > 0 else 0`
(app.py lines 161-162), with `width` already clamped to at least 1. -/
def diagramDoorWidthRel0 (width door_width : ℚ) : ℚ :=
  if 0 < max width 1 then max door_width 0 / max width 1 else 0

/-- `total_doors_span = num_doors * door_width_rel` (app.py line 165),
with `num_doors` already clamped to at least 1. -/
def diagramTotalSpan (width door_width : ℚ) (num_doors : ℤ) : ℚ :=
  (max num_doors 1 : ℤ) * diagramDoorWidthRel0 width door_width

/-- `available_span = 1 - 2 * side_rel` (app.py line 166). -/
def diagramAvailSpan (width side_thk : ℚ) : ℚ :=
  1 - 2 * diagramSideRel width side_thk

/-- The geometry computed by `draw_wardrobe_diagram` (app.py lines 65-183):
everything normalised against the clamped opening width/height. -/
structure Diagram where
  side_rel : ℚ
  bottom_rel : ℚ
  dropdown_rel : ℚ
  door_h_rel : ℚ
  num_doors : ℤ
  door_width_rel : ℚ
deriving DecidableEq, Repr

/-- `draw_wardrobe_diagram` (app.py lines 65-183): clamp the inputs
(lines 77-80), normalise (lines 83-86, 161-162), and scale the door width
down by `available_span / total_doors_span` when the doors would overflow
the liners (lines 165-169). -/
def draw_wardrobe_diagram (opening_width opening_height bottom_thk side_thk
    dropdown_height door_height : ℚ) (num_doors : ℤ) (door_width : ℚ) : Diagram :=
  { side_rel := diagramSideRel opening_width side_thk
    bottom_rel := bottom_thk / max opening_height 1
    dropdown_rel := if 0 < dropdown_height then dropdown_height / max opening_height 1 else 0
    door_h_rel := if 0 < door_height then door_height / max opening_height 1 else 0
    num_doors := max num_doors 1
    door_width_rel :=
      if diagramAvailSpan opening_width side_thk < diagramTotalSpan opening_width door_width num_doors ∧
          0 < diagramTotalSpan opening_width door_width num_doors then
        diagramDoorWidthRel0 opening_width door_width *
          (diagramAvailSpan opening_width side_thk / diagramTotalSpan opening_width door_width num_doors)
      else diagramDoorWidthRel0 opening_width door_width }

/-! ## Rounding lemmas -/

theorem floor_le_pyRound (q : ℚ) : ⌊q⌋ ≤ pyRound q := by
  unfold pyRound
  split
  · exact le_refl _
  · split
    · omega
    · split <;> omega

theorem pyRound_le (q : ℚ) (k : ℤ) (h : q ≤ (k : ℚ)) : pyRound q ≤ k := by
  have hfl : ⌊q⌋ ≤ k := by
    have := Int.floor_le_floor h
    simpa using this
  have hhalf : ∀ hr : ¬(q - ⌊q⌋ < 1/2), ⌊q⌋ + 1 ≤ k := by
    intro hr
    push_neg at hr
    have h1 : (⌊q⌋ : ℚ) + 1/2 ≤ q := by linarith
    have h2 : (⌊q⌋ : ℚ) < (k : ℚ) := by linarith
    have : ⌊q⌋ < k := by exact_mod_cast h2
    omega
  unfold pyRound
  split
  · exact hfl
  · split
    · exact hhalf (by assumption)
    · split
      · exact hfl
      · exact hhalf (by assumption)

theorem le_pyRound (q : ℚ) (k : ℤ) (h : (k : ℚ) ≤ q) : k ≤ pyRound q := by
  have : k ≤ ⌊q⌋ := Int.le_floor.mpr h
  exact le_trans this (floor_le_pyRound q)

theorem pyRound_intCast (k : ℤ) : pyRound (k : ℚ) = k := by
  have h1 : pyRound (k : ℚ) ≤ k := pyRound_le _ _ (le_refl _)
  have h2 : k ≤ pyRound (k : ℚ) := le_pyRound _ _ (le_refl _)
  omega

theorem pyRound1_nonneg (q : ℚ) (h : 0 ≤ q) : 0 ≤ pyRound1 q := by
  unfold pyRound1
  have : (0 : ℤ) ≤ pyRound (10 * q) := le_pyRound _ 0 (by push_cast; linarith)
  positivity

theorem pyRound1_half_int (m : ℤ) : pyRound1 ((m : ℚ) / 2) = (m : ℚ) / 2 := by
  unfold pyRound1
  have h10 : (10 : ℚ) * ((m : ℚ) / 2) = ((5 * m : ℤ) : ℚ) := by push_cast; ring
  rw [h10, pyRound_intCast]
  push_cast
  ring

theorem pyRound1_zero : pyRound1 0 = 0 := by
  have := pyRound1_half_int 0
  simpa using this

/-- Dispatch lemma: rows whose door system is "Fixed 2223mm doors" take the
fixed-mode branch. -/
theorem calculate_for_row_fixed (row : Row) (h : row.Door_System = "Fixed 2223mm doors") :
    calculate_for_row row =
      calcFixedMode (max row.Width_mm 1) (max row.Height_mm 1) (max row.Doors 1)
        row.Fixed_Door_Width_mm := by
  unfold calculate_for_row
  rw [if_pos h]

/-- Dispatch lemma: every other row takes the made-to-measure branch. -/
theorem calculate_for_row_mtm (row : Row) (h : row.Door_System ≠ "Fixed 2223mm doors") :
    calculate_for_row row =
      calcMadeToMeasure (max row.Width_mm 1) (max row.Height_mm 1) (max row.Doors 1)
        row.Top_Liner_Option := by
  unfold calculate_for_row
  rw [if_neg h]

/-! ## Claim C1 -/

/-- C1 counterexample: the claim says width below the documented minimum 300
is clamped up to 300 before computing; the code (app.py line 369) clamps to 1.
With width 100 in made-to-measure mode the engine reports net width
`100 - 36 = 64`, while clamping to 300 would have reported `300 - 36 = 264`
(the result of the width-300 row); the two runs differ, so no clamp to 300
happened. -/
theorem C1_counterexample :
    (calculate_for_row ⟨100, 2600, 1, "Made to measure doors", "No dropdown (0mm)", 762⟩).Net_Width_mm = 64 ∧
    (calculate_for_row ⟨300, 2600, 1, "Made to measure doors", "No dropdown (0mm)", 762⟩).Net_Width_mm = 264 ∧
    (64 : ℤ) ≠ 264 := by
  refine ⟨?_, ?_, by decide⟩ <;>
    rw [calculate_for_row_mtm _ (by decide)] <;>
    norm_num [calcMadeToMeasure, mtmNetWidth, SIDE_LINER_THICKNESS, pyRound]

/-- C1 amended: for every input row, under-range numeric values are clamped
before computing — width and height up to 1 (not 300) and door count up
to 1 — and no exception is raised (the engine is a total function of the
row): running the engine on the clamped row gives the identical result. -/
theorem C1_clamping_to_one (row : Row) :
    calculate_for_row row =
      calculate_for_row ⟨max row.Width_mm 1, max row.Height_mm 1, max row.Doors 1,
        row.Door_System, row.Top_Liner_Option, row.Fixed_Door_Width_mm⟩ := by
  unfold calculate_for_row
  simp only [max_assoc, max_self]

/-! ## Claim C2 -/

/-- C2 counterexample: the claim says an unknown `door_system` fails fast
with a configuration error and no DimensionResult is produced; the code
(app.py lines 373, 449) sends every value other than "Fixed 2223mm doors"
into the made-to-measure branch and returns its full result record.  The
misspelled system "Fixed 2223 doors" yields exactly the made-to-measure
result — a DimensionResult, not an error. -/
theorem C2_counterexample :
    calculate_for_row ⟨2200, 2600, 3, "Fixed 2223 doors", "108mm Dropdown", 762⟩ =
      calculate_for_row ⟨2200, 2600, 3, "Made to measure doors", "108mm Dropdown", 762⟩ := rfl

/-- C2 amended: unknown `door_system` values are not rejected; every value
other than "Fixed 2223mm doors" (malformed ones included) is routed to the
made-to-measure branch and produces that branch's DimensionResult. -/
theorem C2_unknown_system_treated_as_mtm (row : Row)
    (h : row.Door_System ≠ "Fixed 2223mm doors") :
    calculate_for_row row =
      calculate_for_row ⟨row.Width_mm, row.Height_mm, row.Doors,
        "Made to measure doors", row.Top_Liner_Option, row.Fixed_Door_Width_mm⟩ := by
  unfold calculate_for_row
  rw [if_neg h, if_neg (by decide : ¬("Made to measure doors" = "Fixed 2223mm doors"))]

/-- C2 witness: the amended theorem applied to a concrete garbage system. -/
theorem C2_unknown_system_witness :
    calculate_for_row ⟨2200, 2600, 3, "Garbage system", "108mm Dropdown", 762⟩ =
      calculate_for_row ⟨2200, 2600, 3, "Made to measure doors", "108mm Dropdown", 762⟩ :=
  C2_unknown_system_treated_as_mtm
    ⟨2200, 2600, 3, "Garbage system", "108mm Dropdown", 762⟩ (by decide)

/-! ## Claim C6 -/

/-- C6: Scenario B — width 2200, height 2600, 3 doors, fixed 2223mm system
with 762mm doors yields door height 2223, dropdown 287, side liner 32.0,
buildout 14.0, net width 2136, door span 2286, overlap tolerance 150,
span diff 0.0 and an OK status. -/
theorem C6_scenario_fixed :
    (calculate_for_row ⟨2200, 2600, 3, "Fixed 2223mm doors", "108mm Dropdown", 762⟩).Door_Height_mm = 2223 ∧
    (calculate_for_row ⟨2200, 2600, 3, "Fixed 2223mm doors", "108mm Dropdown", 762⟩).Dropdown_Height_mm = 287 ∧
    (calculate_for_row ⟨2200, 2600, 3, "Fixed 2223mm doors", "108mm Dropdown", 762⟩).Side_Liner_Thickness_mm = 32 ∧
    (calculate_for_row ⟨2200, 2600, 3, "Fixed 2223mm doors", "108mm Dropdown", 762⟩).Required_Buildout_Per_Side_mm = 14 ∧
    (calculate_for_row ⟨2200, 2600, 3, "Fixed 2223mm doors", "108mm Dropdown", 762⟩).Net_Width_mm = 2136 ∧
    (calculate_for_row ⟨2200, 2600, 3, "Fixed 2223mm doors", "108mm Dropdown", 762⟩).Door_Span_mm = 2286 ∧
    (calculate_for_row ⟨2200, 2600, 3, "Fixed 2223mm doors", "108mm Dropdown", 762⟩).Overlap_Tolerance_mm = 150 ∧
    (calculate_for_row ⟨2200, 2600, 3, "Fixed 2223mm doors", "108mm Dropdown", 762⟩).Span_Diff_mm = 0 ∧
    (calculate_for_row ⟨2200, 2600, 3, "Fixed 2223mm doors", "108mm Dropdown", 762⟩).Height_Status = "OK" ∧
    (calculate_for_row ⟨2200, 2600, 3, "Fixed 2223mm doors", "108mm Dropdown", 762⟩).Issue = "✅ OK" := by
  refine ⟨?_, ?_, ?_, ?_, ?_, ?_, ?_, ?_, ?_, ?_⟩ <;>
    rw [calculate_for_row_fixed _ (by decide)] <;>
    norm_num [calcFixedMode, fixedModeDropdown, fixedModeStatus,
      fixedDropdownRaw, fixedSideThk, fixedSideThkRaw, fixedDoorSpan, fixedDoorWidth,
      fixedNetWidth, fixedSpanDiff, OVERLAP_TOLERANCES, DEFAULT_FIXED_OVERLAP_TOLERANCE,
      BOTTOM_LINER_THICKNESS, TRACKSET_TOLERANCE, FIXED_DOOR_HEIGHT, SIDE_LINER_THICKNESS,
      MAX_DROPDOWN_LIMIT, pyRound1, pyRound]

/-! ## Claim C3 -/

/-- The clamped side-liner thickness is nonnegative (app.py lines 417-420). -/
theorem fixedSideThk_nonneg (w : ℚ) (d : ℤ) (fw : ℚ) : 0 ≤ fixedSideThk w d fw := by
  unfold fixedSideThk
  split
  · exact le_refl 0
  · linarith [not_lt.mp (by assumption : ¬fixedSideThkRaw w d fw < 0)]

/-- C3: in the fixed-door strategy, for every input the reported door height
is 2223, the reported side-liner thickness is nonnegative, and whenever the
raw side-liner thickness `(width - door_span + tolerance)/2` is nonnegative
(no clamp at 0), the reported span diff `door_span - (net_width + tolerance)`
is 0. -/
theorem C3_fixed_mode_invariants (row : Row) (h : row.Door_System = "Fixed 2223mm doors") :
    (calculate_for_row row).Door_Height_mm = 2223 ∧
    0 ≤ (calculate_for_row row).Side_Liner_Thickness_mm ∧
    (0 ≤ fixedSideThkRaw (max row.Width_mm 1) (max row.Doors 1) row.Fixed_Door_Width_mm →
      (calculate_for_row row).Span_Diff_mm = 0) := by
  rw [calculate_for_row_fixed row h]
  refine ⟨?_, ?_, ?_⟩
  · show pyRound FIXED_DOOR_HEIGHT = 2223
    norm_num [FIXED_DOOR_HEIGHT, pyRound]
  · exact pyRound1_nonneg _ (fixedSideThk_nonneg _ _ _)
  · intro hraw
    show pyRound1 (fixedSpanDiff _ _ _) = 0
    have hside : fixedSideThk (max row.Width_mm 1) (max row.Doors 1) row.Fixed_Door_Width_mm =
        fixedSideThkRaw (max row.Width_mm 1) (max row.Doors 1) row.Fixed_Door_Width_mm := by
      unfold fixedSideThk
      rw [if_neg (not_lt.mpr hraw)]
    have hzero : fixedSpanDiff (max row.Width_mm 1) (max row.Doors 1) row.Fixed_Door_Width_mm = 0 := by
      unfold fixedSpanDiff fixedNetWidth
      rw [hside]
      unfold fixedSideThkRaw
      ring
    rw [hzero, pyRound1_zero]

/-- C3 witness: the invariants at the Scenario B row (width 2200, 3 doors,
762mm fixed doors), where the raw side thickness 32 is nonnegative. -/
theorem C3_fixed_mode_invariants_witness :
    (calculate_for_row ⟨2200, 2600, 3, "Fixed 2223mm doors", "90mm Dropdown", 762⟩).Door_Height_mm = 2223 ∧
    0 ≤ (calculate_for_row ⟨2200, 2600, 3, "Fixed 2223mm doors", "90mm Dropdown", 762⟩).Side_Liner_Thickness_mm ∧
    (0 ≤ fixedSideThkRaw (max (2200:ℚ) 1) (max (3:ℤ) 1) 762 →
      (calculate_for_row ⟨2200, 2600, 3, "Fixed 2223mm doors", "90mm Dropdown", 762⟩).Span_Diff_mm = 0) :=
  C3_fixed_mode_invariants ⟨2200, 2600, 3, "Fixed 2223mm doors", "90mm Dropdown", 762⟩ rfl

/-! ## Claim C10 -/

/-- C10: with one door in the fixed-door strategy — a count absent from the
overlap-tolerance table — the engine uses the default 150mm tolerance, and
(when no clamp at 0 occurs) the side-liner thickness is computed as
`(width - door_width + 150)/2`; a full fixed-mode result is produced rather
than an error. -/
theorem C10_single_door_default_tolerance (row : Row)
    (hsys : row.Door_System = "Fixed 2223mm doors") (hd : row.Doors = 1)
    (hraw : 0 ≤ (max row.Width_mm 1 - fixedDoorWidth row.Fixed_Door_Width_mm + 150) / 2) :
    (calculate_for_row row).Overlap_Tolerance_mm = 150 ∧
    (calculate_for_row row).Side_Liner_Thickness_mm =
      pyRound1 ((max row.Width_mm 1 - fixedDoorWidth row.Fixed_Door_Width_mm + 150) / 2) ∧
    (calculate_for_row row).Doors_Used = 1 ∧
    (calculate_for_row row).Door_Height_mm = 2223 := by
  rw [calculate_for_row_fixed row hsys]
  have hd1 : max row.Doors 1 = 1 := by rw [hd]; exact max_self 1
  have htol : OVERLAP_TOLERANCES 1 = 150 := by
    norm_num [OVERLAP_TOLERANCES, DEFAULT_FIXED_OVERLAP_TOLERANCE]
  have hspan : fixedDoorSpan 1 row.Fixed_Door_Width_mm = fixedDoorWidth row.Fixed_Door_Width_mm := by
    unfold fixedDoorSpan
    push_cast
    ring
  have hrawEq : fixedSideThkRaw (max row.Width_mm 1) 1 row.Fixed_Door_Width_mm =
      (max row.Width_mm 1 - fixedDoorWidth row.Fixed_Door_Width_mm + 150) / 2 := by
    unfold fixedSideThkRaw
    rw [hspan, htol]
  refine ⟨?_, ?_, ?_, ?_⟩
  · show pyRound (OVERLAP_TOLERANCES (max row.Doors 1)) = 150
    rw [hd1, htol]
    norm_num [pyRound]
  · show pyRound1 (fixedSideThk (max row.Width_mm 1) (max row.Doors 1) row.Fixed_Door_Width_mm) = _
    rw [hd1]
    unfold fixedSideThk
    rw [hrawEq, if_neg (not_lt.mpr hraw)]
  · show max row.Doors 1 = 1
    exact hd1
  · show pyRound FIXED_DOOR_HEIGHT = 2223
    norm_num [FIXED_DOOR_HEIGHT, pyRound]

/-- C10 witness: one 762mm door in a 2200mm opening — tolerance 150 and side
thickness (2200 - 762 + 150)/2 = 794. -/
theorem C10_single_door_witness :
    (calculate_for_row ⟨2200, 2600, 1, "Fixed 2223mm doors", "90mm Dropdown", 762⟩).Overlap_Tolerance_mm = 150 ∧
    (calculate_for_row ⟨2200, 2600, 1, "Fixed 2223mm doors", "90mm Dropdown", 762⟩).Side_Liner_Thickness_mm =
      pyRound1 ((max (2200:ℚ) 1 - fixedDoorWidth 762 + 150) / 2) ∧
    (calculate_for_row ⟨2200, 2600, 1, "Fixed 2223mm doors", "90mm Dropdown", 762⟩).Doors_Used = 1 ∧
    (calculate_for_row ⟨2200, 2600, 1, "Fixed 2223mm doors", "90mm Dropdown", 762⟩).Door_Height_mm = 2223 :=
  C10_single_door_default_tolerance ⟨2200, 2600, 1, "Fixed 2223mm doors", "90mm Dropdown", 762⟩
    rfl rfl (by norm_num [fixedDoorWidth])

/-! ## Additional helper lemmas -/

theorem pyRound1_intCast (k : ℤ) : pyRound1 (k : ℚ) = (k : ℚ) := by
  unfold pyRound1
  have h10 : (10 : ℚ) * (k : ℚ) = ((10 * k : ℤ) : ℚ) := by push_cast; ring
  rw [h10, pyRound_intCast]
  push_cast
  ring

/-- The fixed door width is always a whole number of millimetres. -/
theorem fixedDoorWidth_int (fw : ℚ) : ∃ k : ℤ, fixedDoorWidth fw = (k : ℚ) := by
  unfold fixedDoorWidth
  split
  · rename_i h
    rcases h with h | h | h
    · exact ⟨610, by rw [h]; norm_num⟩
    · exact ⟨762, by rw [h]; norm_num⟩
    · exact ⟨914, by rw [h]; norm_num⟩
  · exact ⟨762, by norm_num⟩

/-- The overlap tolerance is always a whole number of millimetres. -/
theorem OVERLAP_TOLERANCES_int (d : ℤ) : ∃ k : ℤ, OVERLAP_TOLERANCES d = (k : ℚ) := by
  unfold OVERLAP_TOLERANCES DEFAULT_FIXED_OVERLAP_TOLERANCE
  split
  · exact ⟨75, by norm_num⟩
  · split
    · exact ⟨150, by norm_num⟩
    · split
      · exact ⟨150, by norm_num⟩
      · exact ⟨150, by norm_num⟩

/-- Two strings with different first characters differ. -/
theorem string_ne_of_head (s t : String) (c d : Char) (ts us : List Char)
    (hs : s.data = c :: ts) (ht : t.data = d :: us) (hcd : c ≠ d) : s ≠ t := by
  intro he
  apply hcd
  have h2 : c :: ts = d :: us := by rw [← hs, ← ht, he]
  injection h2 with h3 _

/-! ## Claim C4 -/

/-- C4 counterexample: for the valid input width 300.5 (a number ≥ 300, as
the schema allows) in made-to-measure mode, the reported net width is
`round(264.5) = 264` (banker's rounding) while `width - 2*side = 300.5 - 36
= 264.5`: the identity fails on the reported (rounded) fields. -/
theorem C4_counterexample :
    ¬(((calculate_for_row ⟨601/2, 2600, 1, "Made to measure doors", "No dropdown (0mm)", 762⟩).Net_Width_mm : ℚ) =
      (601/2 : ℚ) - 2 * (calculate_for_row ⟨601/2, 2600, 1, "Made to measure doors", "No dropdown (0mm)", 762⟩).Side_Liner_Thickness_mm) := by
  rw [calculate_for_row_mtm _ (by decide)]
  norm_num [calcMadeToMeasure, mtmNetWidth, SIDE_LINER_THICKNESS, pyRound1, pyRound]

/-- C4 amended: for every valid input whose width is a whole number of
millimetres, in both strategies the reported net width equals the input
width minus twice the reported side-liner thickness, exactly, including
after the rounding of the reported fields.  (For fractional widths the
identity holds for the unrounded values but can fail by sub-millimetre
rounding of the reported fields, as the counterexample shows.) -/
theorem C4_net_width_identity (row : Row) (n : ℤ) (hn : row.Width_mm = (n : ℚ))
    (h300 : 300 ≤ row.Width_mm) :
    ((calculate_for_row row).Net_Width_mm : ℚ) =
      row.Width_mm - 2 * (calculate_for_row row).Side_Liner_Thickness_mm := by
  have hmax : max row.Width_mm 1 = row.Width_mm := max_eq_left (by linarith)
  by_cases hsys : row.Door_System = "Fixed 2223mm doors"
  · rw [calculate_for_row_fixed row hsys]
    show (pyRound (fixedNetWidth _ _ _) : ℚ) = _ - 2 * pyRound1 (fixedSideThk _ _ _)
    obtain ⟨dwZ, hdwZ⟩ := fixedDoorWidth_int row.Fixed_Door_Width_mm
    obtain ⟨tolZ, htolZ⟩ := OVERLAP_TOLERANCES_int (max row.Doors 1)
    have hraw : fixedSideThkRaw (max row.Width_mm 1) (max row.Doors 1) row.Fixed_Door_Width_mm =
        ((n - max row.Doors 1 * dwZ + tolZ : ℤ) : ℚ) / 2 := by
      unfold fixedSideThkRaw fixedDoorSpan
      rw [hmax, hn, hdwZ, htolZ]
      push_cast
      ring
    by_cases hneg : fixedSideThkRaw (max row.Width_mm 1) (max row.Doors 1) row.Fixed_Door_Width_mm < 0
    · have hside : fixedSideThk (max row.Width_mm 1) (max row.Doors 1) row.Fixed_Door_Width_mm = 0 := by
        unfold fixedSideThk
        rw [if_pos hneg]
      have hnet : fixedNetWidth (max row.Width_mm 1) (max row.Doors 1) row.Fixed_Door_Width_mm = (n : ℚ) := by
        unfold fixedNetWidth
        rw [hside, hmax, hn]
        ring
      rw [hside, hnet, pyRound_intCast, pyRound1_zero, hn]
      ring
    · have hside : fixedSideThk (max row.Width_mm 1) (max row.Doors 1) row.Fixed_Door_Width_mm =
          ((n - max row.Doors 1 * dwZ + tolZ : ℤ) : ℚ) / 2 := by
        unfold fixedSideThk
        rw [if_neg hneg, hraw]
      have hnet : fixedNetWidth (max row.Width_mm 1) (max row.Doors 1) row.Fixed_Door_Width_mm =
          ((n - (n - max row.Doors 1 * dwZ + tolZ) : ℤ) : ℚ) := by
        unfold fixedNetWidth
        rw [hside, hmax, hn]
        push_cast
        ring
      rw [hside, hnet, pyRound_intCast, pyRound1_half_int, hn]
      push_cast
      ring
  · rw [calculate_for_row_mtm row hsys]
    show (pyRound (mtmNetWidth _) : ℚ) = _ - 2 * pyRound1 SIDE_LINER_THICKNESS
    have hnet : mtmNetWidth (max row.Width_mm 1) = ((n - 36 : ℤ) : ℚ) := by
      unfold mtmNetWidth SIDE_LINER_THICKNESS
      rw [hmax, hn]
      push_cast
      ring
    have hside : pyRound1 SIDE_LINER_THICKNESS = 18 := by
      have h18 : SIDE_LINER_THICKNESS = ((18 : ℤ) : ℚ) := by
        unfold SIDE_LINER_THICKNESS
        norm_num
      rw [h18, pyRound1_intCast]
      norm_num
    rw [hnet, pyRound_intCast, hside, hn]
    push_cast
    ring

/-- C4 witness: the amended identity at the integer-width Scenario B row. -/
theorem C4_net_width_identity_witness :
    ((calculate_for_row ⟨2200, 2600, 3, "Fixed 2223mm doors", "50mm Dropdown", 762⟩).Net_Width_mm : ℚ) =
      2200 - 2 * (calculate_for_row ⟨2200, 2600, 3, "Fixed 2223mm doors", "50mm Dropdown", 762⟩).Side_Liner_Thickness_mm :=
  C4_net_width_identity ⟨2200, 2600, 3, "Fixed 2223mm doors", "50mm Dropdown", 762⟩
    2200 (by norm_num) (by norm_num)

/-! ## Claim C5 -/

/-- The selected fixed dropdown value is one of 108/90/50/0, hence
nonnegative. -/
theorem TOP_LINER_OPTIONS_nonneg (o : String) : 0 ≤ TOP_LINER_OPTIONS o := by
  unfold TOP_LINER_OPTIONS
  split
  · norm_num
  · split
    · norm_num
    · split
      · norm_num
      · split <;> norm_num

theorem mtmHeightCalc_dropdown_nonneg (b : ℚ) (o : String) :
    0 ≤ (mtmHeightCalc b o).dropdown_h := by
  unfold mtmHeightCalc
  split
  · show 0 ≤ bespokeDropdown b
    unfold bespokeDropdown bespokeIdealDropdown MAX_DROPDOWN_LIMIT
    exact le_min (le_max_right _ 0) (by norm_num)
  · show 0 ≤ fixedOptDropdown o
    unfold fixedOptDropdown MAX_DROPDOWN_LIMIT
    exact le_min (TOP_LINER_OPTIONS_nonneg o) (by norm_num)

theorem mtmHeightCalc_dropdown_le (b : ℚ) (o : String) :
    (mtmHeightCalc b o).dropdown_h ≤ 400 := by
  unfold mtmHeightCalc
  split
  · show bespokeDropdown b ≤ 400
    unfold bespokeDropdown MAX_DROPDOWN_LIMIT
    exact min_le_right _ _
  · show fixedOptDropdown o ≤ 400
    unfold fixedOptDropdown MAX_DROPDOWN_LIMIT
    exact min_le_right _ _

theorem mtmHeightCalc_final_nonneg (b : ℚ) (o : String) :
    0 ≤ (mtmHeightCalc b o).final_door_h := by
  unfold mtmHeightCalc
  split
  · show 0 ≤ bespokeFinalDoorHeight b
    unfold bespokeFinalDoorHeight bespokeRawDoorHeight MAX_DOOR_HEIGHT
    exact le_min (le_max_right _ 0) (by norm_num)
  · show 0 ≤ fixedOptFinalDoorHeight b o
    unfold fixedOptFinalDoorHeight
    split
    · exact le_max_right _ 0
    · unfold MAX_DOOR_HEIGHT
      norm_num

theorem mtmHeightCalc_final_le (b : ℚ) (o : String) :
    (mtmHeightCalc b o).final_door_h ≤ 2431 := by
  unfold mtmHeightCalc
  split
  · show bespokeFinalDoorHeight b ≤ 2431
    unfold bespokeFinalDoorHeight MAX_DOOR_HEIGHT
    exact min_le_right _ _
  · show fixedOptFinalDoorHeight b o ≤ 2431
    unfold fixedOptFinalDoorHeight
    split
    · rename_i hle
      unfold MAX_DOOR_HEIGHT at hle
      exact hle
    · unfold MAX_DOOR_HEIGHT
      norm_num

/-- C5: in the made-to-measure strategy (every non-fixed row, both the
fixed-dropdown and bespoke sub-modes), the reported dropdown height lies in
[0, 400] and the reported door height lies in [0, 2431]. -/
theorem C5_mtm_bounds (row : Row) (h : row.Door_System ≠ "Fixed 2223mm doors") :
    0 ≤ (calculate_for_row row).Dropdown_Height_mm ∧
    (calculate_for_row row).Dropdown_Height_mm ≤ 400 ∧
    0 ≤ (calculate_for_row row).Door_Height_mm ∧
    (calculate_for_row row).Door_Height_mm ≤ 2431 := by
  rw [calculate_for_row_mtm row h]
  refine ⟨?_, ?_, ?_, ?_⟩
  · exact le_pyRound _ 0 (by exact_mod_cast mtmHeightCalc_dropdown_nonneg _ _)
  · exact pyRound_le _ 400 (by exact_mod_cast mtmHeightCalc_dropdown_le _ _)
  · exact le_pyRound _ 0 (by exact_mod_cast mtmHeightCalc_final_nonneg _ _)
  · exact pyRound_le _ 2431 (by exact_mod_cast mtmHeightCalc_final_le _ _)

/-- C5 witness: the bounds at the bespoke Scenario D row. -/
theorem C5_mtm_bounds_witness :
    0 ≤ (calculate_for_row ⟨2200, 2600, 2, "Made to measure doors", "Bespoke dropdown (auto)", 762⟩).Dropdown_Height_mm ∧
    (calculate_for_row ⟨2200, 2600, 2, "Made to measure doors", "Bespoke dropdown (auto)", 762⟩).Dropdown_Height_mm ≤ 400 ∧
    0 ≤ (calculate_for_row ⟨2200, 2600, 2, "Made to measure doors", "Bespoke dropdown (auto)", 762⟩).Door_Height_mm ∧
    (calculate_for_row ⟨2200, 2600, 2, "Made to measure doors", "Bespoke dropdown (auto)", 762⟩).Door_Height_mm ≤ 2431 :=
  C5_mtm_bounds ⟨2200, 2600, 2, "Made to measure doors", "Bespoke dropdown (auto)", 762⟩ (by decide)

/-! ## Claim C9 -/

/-- C9: in the bespoke sub-mode the fallback status
"Check height / dropdown settings." is unreachable — the final door height
`min(raw, 2431)` never exceeds 2431, so the status is the bespoke OK message
exactly when the ideal dropdown fits in 400mm (and the too-tall message
otherwise). -/
theorem C9_bespoke_fallback_unreachable (row : Row)
    (hsys : row.Door_System ≠ "Fixed 2223mm doors")
    (hopt : row.Top_Liner_Option = BESPOKE_DROPDOWN_LABEL) :
    (calculate_for_row row).Height_Status ≠ "Check height / dropdown settings." ∧
    ((calculate_for_row row).Height_Status = "OK (bespoke dropdown auto-calculated for fit)" ↔
      bespokeIdealDropdown (baseUsableHeight (max row.Height_mm 1)) ≤ 400) := by
  rw [calculate_for_row_mtm row hsys]
  simp only [calcMadeToMeasure]
  have hm : mtmHeightCalc (baseUsableHeight (max row.Height_mm 1)) row.Top_Liner_Option =
      { dropdown_h := bespokeDropdown (baseUsableHeight (max row.Height_mm 1))
        final_door_h := bespokeFinalDoorHeight (baseUsableHeight (max row.Height_mm 1))
        height_status := bespokeStatus (baseUsableHeight (max row.Height_mm 1))
        recommended := some (pyRound (bespokeDropdown (baseUsableHeight (max row.Height_mm 1)))) } := by
    unfold mtmHeightCalc
    rw [if_pos hopt]
  rw [hm]
  dsimp only
  have hfin : bespokeFinalDoorHeight (baseUsableHeight (max row.Height_mm 1)) ≤ MAX_DOOR_HEIGHT :=
    min_le_right _ _
  by_cases hle : bespokeIdealDropdown (baseUsableHeight (max row.Height_mm 1)) ≤ 400
  · have hst : bespokeStatus (baseUsableHeight (max row.Height_mm 1)) =
        "OK (bespoke dropdown auto-calculated for fit)" := by
      unfold bespokeStatus
      rw [if_pos ⟨by unfold MAX_DROPDOWN_LIMIT; exact hle, hfin⟩]
    rw [hst]
    refine ⟨by decide, ?_⟩
    constructor
    · intro _
      exact hle
    · intro _
      rfl
  · push_neg at hle
    have h1 : ¬(bespokeIdealDropdown (baseUsableHeight (max row.Height_mm 1)) ≤ MAX_DROPDOWN_LIMIT ∧
        bespokeFinalDoorHeight (baseUsableHeight (max row.Height_mm 1)) ≤ MAX_DOOR_HEIGHT) := by
      intro hc
      have h2 := hc.1
      unfold MAX_DROPDOWN_LIMIT at h2
      linarith
    have h2 : MAX_DROPDOWN_LIMIT < bespokeIdealDropdown (baseUsableHeight (max row.Height_mm 1)) := by
      unfold MAX_DROPDOWN_LIMIT
      linarith
    have hst : bespokeStatus (baseUsableHeight (max row.Height_mm 1)) =
        "Too tall for perfect fit with max 400mm bespoke dropdown (ideal dropdown would be about " ++
          toString (pyRound (bespokeIdealDropdown (baseUsableHeight (max row.Height_mm 1)))) ++
          "mm). Door height capped at 2431mm." := by
      unfold bespokeStatus
      rw [if_neg h1, if_pos h2]
    rw [hst]
    constructor
    · exact string_ne_of_head _ _ 'T' 'C' _ _ rfl rfl (by decide)
    · constructor
      · intro hc
        exact absurd hc (string_ne_of_head _ _ 'T' 'O' _ _ rfl rfl (by decide))
      · intro hc
        exact absurd hc (not_le.mpr hle)

/-- C9 witness: a bespoke row with height 2500 (ideal dropdown 0 ≤ 400, OK
status). -/
theorem C9_bespoke_fallback_witness :
    (calculate_for_row ⟨2100, 2500, 2, "Made to measure doors", "Bespoke dropdown (auto)", 762⟩).Height_Status ≠
      "Check height / dropdown settings." ∧
    ((calculate_for_row ⟨2100, 2500, 2, "Made to measure doors", "Bespoke dropdown (auto)", 762⟩).Height_Status =
        "OK (bespoke dropdown auto-calculated for fit)" ↔
      bespokeIdealDropdown (baseUsableHeight (max (2500 : ℚ) 1)) ≤ 400) :=
  C9_bespoke_fallback_unreachable ⟨2100, 2500, 2, "Made to measure doors", "Bespoke dropdown (auto)", 762⟩
    (by decide) rfl

/-! ## Claim C8 -/

/-- C8: in the diagram layout, whenever the total normalised door span
exceeds the available inner span `1 - 2*side_rel` (with positive door
width), every door's rendered width is the unscaled width multiplied by the
single factor `available_span / total_span`, and the rendered doors' total
span then never exceeds the available span.  The scaling is confined to the
`Diagram` geometry: `draw_wardrobe_diagram` neither receives nor produces a
`DimensionResult`, so no engine field changes. -/
theorem C8_diagram_door_scaling (ow oh bt st dd dh : ℚ) (n : ℤ) (dw : ℚ)
    (hdw : 0 < dw)
    (hexceed : diagramAvailSpan ow st < diagramTotalSpan ow dw n) :
    (draw_wardrobe_diagram ow oh bt st dd dh n dw).door_width_rel =
      diagramDoorWidthRel0 ow dw * (diagramAvailSpan ow st / diagramTotalSpan ow dw n) ∧
    ((max n 1 : ℤ) : ℚ) * (draw_wardrobe_diagram ow oh bt st dd dh n dw).door_width_rel ≤
      diagramAvailSpan ow st := by
  have hw : (0 : ℚ) < max ow 1 := lt_of_lt_of_le one_pos (le_max_right ow 1)
  have hdwr : 0 < diagramDoorWidthRel0 ow dw := by
    unfold diagramDoorWidthRel0
    rw [if_pos hw]
    exact div_pos (lt_max_of_lt_left hdw) hw
  have hn1 : (0 : ℤ) < max n 1 := lt_of_lt_of_le one_pos (le_max_right n 1)
  have htot : 0 < diagramTotalSpan ow dw n := by
    unfold diagramTotalSpan
    exact mul_pos (by exact_mod_cast hn1) hdwr
  have hsel : (draw_wardrobe_diagram ow oh bt st dd dh n dw).door_width_rel =
      diagramDoorWidthRel0 ow dw * (diagramAvailSpan ow st / diagramTotalSpan ow dw n) := by
    show (if _ then _ else _) = _
    rw [if_pos ⟨hexceed, htot⟩]
  refine ⟨hsel, ?_⟩
  rw [hsel, ← mul_assoc]
  have hmul : ((max n 1 : ℤ) : ℚ) * diagramDoorWidthRel0 ow dw = diagramTotalSpan ow dw n := rfl
  rw [hmul, mul_comm, div_mul_cancel₀ _ (ne_of_gt htot)]

/-- C8 witness: a 1000mm opening with 100mm side liners and two 600mm doors
(total span 1.2 against available 0.8) — the doors are scaled down to fill
exactly the available span. -/
theorem C8_diagram_door_scaling_witness :
    (draw_wardrobe_diagram 1000 2000 36 100 0 2000 2 600).door_width_rel =
      diagramDoorWidthRel0 1000 600 * (diagramAvailSpan 1000 100 / diagramTotalSpan 1000 600 2) ∧
    ((max (2 : ℤ) 1 : ℤ) : ℚ) * (draw_wardrobe_diagram 1000 2000 36 100 0 2000 2 600).door_width_rel ≤
      diagramAvailSpan 1000 100 :=
  C8_diagram_door_scaling 1000 2000 36 100 0 2000 2 600 (by norm_num)
    (by norm_num [diagramAvailSpan, diagramTotalSpan, diagramDoorWidthRel0, diagramSideRel])

/-! ## Claim C7 -/

/-- C7: for every input, in both strategies, the returned issue flag is
the OK flag exactly when the returned height status string begins with
"OK", and the issue flag is always one of the OK flag or the CHECK flag. -/
theorem C7_issue_iff_status_ok (row : Row) :
    ((calculate_for_row row).Issue = "✅ OK" ↔
      pyStartswith (calculate_for_row row).Height_Status "OK" = true) ∧
    ((calculate_for_row row).Issue = "✅ OK" ∨
      (calculate_for_row row).Issue = "🔴 Check height") := by
  by_cases hsys : row.Door_System = "Fixed 2223mm doors"
  · rw [calculate_for_row_fixed row hsys]
    simp only [calcFixedMode]
    by_cases hc1 : fixedDropdownRaw (max row.Height_mm 1) < 0
    · have hst : fixedModeStatus (max row.Height_mm 1) =
          "Opening too small for 2223mm door plus 36mm bottom liner and 54mm trackset tolerance." := by
        unfold fixedModeStatus
        rw [if_pos hc1]
      rw [hst]
      decide
    · by_cases hc2 : MAX_DROPDOWN_LIMIT < fixedDropdownRaw (max row.Height_mm 1)
      · have hst : fixedModeStatus (max row.Height_mm 1) =
            "Dropdown needed is " ++ toString (pyInt (fixedDropdownRaw (max row.Height_mm 1))) ++
              "mm – exceeds max allowed 400mm (including 54mm trackset tolerance)." := by
          unfold fixedModeStatus
          rw [if_neg hc1, if_pos hc2]
        rw [hst]
        have hne : ("Dropdown needed is " ++ toString (pyInt (fixedDropdownRaw (max row.Height_mm 1))) ++
            "mm – exceeds max allowed 400mm (including 54mm trackset tolerance).") ≠ "OK" :=
          string_ne_of_head _ _ 'D' 'O' _ _ rfl rfl (by decide)
        have hps : pyStartswith ("Dropdown needed is " ++
            toString (pyInt (fixedDropdownRaw (max row.Height_mm 1))) ++
            "mm – exceeds max allowed 400mm (including 54mm trackset tolerance).") "OK" = false := rfl
        rw [if_neg hne, hps]
        refine ⟨?_, Or.inr rfl⟩
        constructor
        · intro hcx
          exact absurd hcx (by decide)
        · intro hcx
          exact absurd hcx (by decide)
      · have hst : fixedModeStatus (max row.Height_mm 1) = "OK" := by
          unfold fixedModeStatus
          rw [if_neg hc1, if_neg hc2]
        rw [hst]
        decide
  · rw [calculate_for_row_mtm row hsys]
    simp only [calcMadeToMeasure]
    rcases Bool.eq_false_or_eq_true
        (pyStartswith (mtmHeightCalc (baseUsableHeight (max row.Height_mm 1))
          row.Top_Liner_Option).height_status "OK") with hb | hb <;>
      rw [hb] <;> decide
